import Mathlib

/-!
Verification development for the handwritten-form extraction backend
(`backend/main.py`, `backend/database.py`).

The Python code is shallowly embedded: JSON values (the values produced by
`json.loads` and handled as Python dicts/lists/strings/ints/bools/None) are
the inductive type `Json`; a raised Python exception is the `.error` side of
an `Except PyExn _`; the SQLite table behind `database.py` is a `Store`
(a list of rows plus the AUTOINCREMENT counter).  Machine-level aspects the
claims do not touch (float JSON literals, the exact wording of Python
exception messages, file-system writes) are noted where they are
approximated.
-/

/-- A parsed JSON value, i.e. what `json.loads` / `response.json()` can
produce and what the Python code passes around as dicts and lists.
Numbers are modelled as integers: no claim involves fractional literals,
and `json_loads` below rejects them rather than mis-modelling them. -/
inductive Json where
  | null : Json
  | bool : Bool → Json
  | num : Int → Json
  | str : String → Json
  | arr : List Json → Json
  | obj : List (String × Json) → Json
deriving Inhabited

mutual

/-- Structural (Python `==` on JSON data) equality test, mutually with lists. -/
def jsonBeq : Json → Json → Bool
  | .null, .null => true
  | .bool a, .bool b => a == b
  | .num a, .num b => a == b
  | .str a, .str b => a == b
  | .arr a, .arr b => jsonListBeq a b
  | .obj a, .obj b => jsonPairsBeq a b
  | _, _ => false

/-- Elementwise equality of JSON arrays. -/
def jsonListBeq : List Json → List Json → Bool
  | [], [] => true
  | a :: as', b :: bs' => jsonBeq a b && jsonListBeq as' bs'
  | _, _ => false

/-- Pairwise equality of JSON object entry lists. -/
def jsonPairsBeq (xs ys : List (String × Json)) : Bool :=
  match xs, ys with
  | [], [] => true
  | (k, v) :: as', (k2, v2) :: bs' => k == k2 && jsonBeq v v2 && jsonPairsBeq as' bs'
  | _, _ => false

end

/-- A raised Python exception: `name` is `type(e).__name__`, `msg` is `str(e)`. -/
structure PyExn where
  name : String
  msg : String
deriving Repr, DecidableEq

/-- Escapes used by Python string `repr`: backslash, quote and the common
control characters (other non-printables are passed through unchanged,
an approximation that no claim depends on). -/
def pyEscape : List Char → String
  | [] => ""
  | c :: cs =>
      (if c = '\\' then "\\\\"
       else if c = '\x27' then "\\\x27"
       else if c = '\n' then "\\n"
       else if c = '\r' then "\\r"
       else if c = '\t' then "\\t"
       else String.mk [c]) ++ pyEscape cs

mutual

/-- Python `repr()` of a JSON value (the form used inside containers by
`str()`): strings single-quoted with the common escapes, `True`/`False`/
`None`, lists `[a, b]`, dicts with `key: value` entries. -/
def pyRepr : Json → String
  | .null => "None"
  | .bool true => "True"
  | .bool false => "False"
  | .num n => toString n
  | .str s => "\x27" ++ pyEscape s.toList ++ "\x27"
  | .arr xs => "[" ++ String.intercalate ", " (pyReprList xs) ++ "]"
  | .obj kvs => "\x7b" ++ String.intercalate ", " (pyReprPairs kvs) ++ "\x7d"

/-- `repr` of each element of a JSON array. -/
def pyReprList : List Json → List String
  | [] => []
  | x :: xs => pyRepr x :: pyReprList xs

/-- `repr` of each `key: value` entry of a JSON object. -/
def pyReprPairs : List (String × Json) → List String
  | [] => []
  | (k, v) :: kvs =>
      ("\x27" ++ pyEscape k.toList ++ "\x27: " ++ pyRepr v) :: pyReprPairs kvs

end

/-- Python `str()` of a JSON value: a string is returned as-is, everything
else falls back to `repr`. -/
def pyStrTop : Json → String
  | .str s => s
  | j => pyRepr j

/-- Key lookup in a JSON object entry list (Python dict lookup; the parser
below never produces duplicate keys, mirroring `json.loads`). -/
def lookupKey (kvs : List (String × Json)) (k : String) : Option Json :=
  List.lookup k kvs

/-- Insert-or-replace for JSON object entries: an existing key keeps its
position and gets the new value, as assignment to a Python dict does. -/
def setKey : List (String × Json) → String → Json → List (String × Json)
  | [], k, v => [(k, v)]
  | (k2, v2) :: kvs, k, v =>
      if k2 == k then (k2, v) :: kvs else (k2, v2) :: setKey kvs k v

/-- Python subscript `j[i]` with an integer index `i ≥ 0`: lists and strings
index, dicts raise `KeyError` (JSON dict keys are strings), the rest raise
`TypeError`. -/
def getItemNat (j : Json) (i : Nat) : Except PyExn Json :=
  match j with
  | .arr xs =>
      match xs.get? i with
      | some x => .ok x
      | none => .error ⟨"IndexError", "list index out of range"⟩
  | .str s =>
      match s.toList.get? i with
      | some c => .ok (.str (String.mk [c]))
      | none => .error ⟨"IndexError", "string index out of range"⟩
  | .obj _ => .error ⟨"KeyError", toString i⟩
  | _ => .error ⟨"TypeError", "object is not subscriptable"⟩

/-- Python subscript `j[k]` with a string key: dicts look the key up
(`KeyError` when absent), everything else raises `TypeError`. -/
def getItemStr (j : Json) (k : String) : Except PyExn Json :=
  match j with
  | .obj kvs =>
      match lookupKey kvs k with
      | some v => .ok v
      | none => .error ⟨"KeyError", k⟩
  | .arr _ => .error ⟨"TypeError", "list indices must be integers or slices, not str"⟩
  | .str _ => .error ⟨"TypeError", "string indices must be integers"⟩
  | _ => .error ⟨"TypeError", "object is not subscriptable"⟩

/-- Does the character list `sub` occur contiguously in `hay`? -/
def startsWithChars : List Char → List Char → Bool
  | _, [] => true
  | [], _ :: _ => false
  | c :: cs, d :: ds => c == d && startsWithChars cs ds

/-- Substring test on character lists (Python `sub in hay` for strings). -/
def containsChars (hay sub : List Char) : Bool :=
  startsWithChars hay sub ||
    match hay with
    | [] => false
    | _ :: t => containsChars t sub

/-- Python `k in j` for a string `k`: key membership for dicts, element
equality for lists, substring test for strings, `TypeError` otherwise. -/
def pyIn (k : String) (j : Json) : Except PyExn Bool :=
  match j with
  | .obj kvs => .ok (lookupKey kvs k).isSome
  | .arr xs => .ok (xs.any (fun x => jsonBeq x (.str k)))
  | .str s => .ok (containsChars s.toList k.toList)
  | _ => .error ⟨"TypeError", "argument is not iterable"⟩

/-- Python iteration `for x in j`: list elements, string characters
(as 1-character strings), dict keys; `TypeError` otherwise. -/
def pyIterate (j : Json) : Except PyExn (List Json) :=
  match j with
  | .arr xs => .ok xs
  | .str s => .ok (s.toList.map (fun c => Json.str (String.mk [c])))
  | .obj kvs => .ok (kvs.map (fun kv => Json.str kv.1))
  | _ => .error ⟨"TypeError", "object is not iterable"⟩

/-- Python `j.get(k, default)`: only dicts have `.get`; anything else
raises `AttributeError`. -/
def pyDictGet (j : Json) (k : String) (default : Json) : Except PyExn Json :=
  match j with
  | .obj kvs => .ok ((lookupKey kvs k).getD default)
  | _ => .error ⟨"AttributeError", "object has no attribute get"⟩

/-- Skip JSON whitespace. -/
def skipWs : List Char → List Char
  | c :: cs => if c = ' ' || c = '\t' || c = '\n' || c = '\r' then skipWs cs else c :: cs
  | [] => []

/-- Value of a hexadecimal digit (code points 0-9, a-f, A-F). -/
def hexVal (c : Char) : Option Nat :=
  let n := c.toNat
  if 48 ≤ n ∧ n ≤ 57 then some (n - 48)
  else if 97 ≤ n ∧ n ≤ 102 then some (n - 87)
  else if 65 ≤ n ∧ n ≤ 70 then some (n - 55)
  else none

/-- Body of a JSON string literal, after the opening quote: handles the
standard escapes and `\uXXXX`, rejects raw control characters, and returns
the decoded string with the rest of the input. -/
def parseStringBody (acc : List Char) : List Char → Except String (String × List Char)
  | [] => .error "Unterminated string"
  | '"' :: rest => .ok (String.mk acc.reverse, rest)
  | '\\' :: rest =>
      match rest with
      | [] => .error "Unterminated string escape"
      | e :: rest2 =>
          if e = '"' then parseStringBody ('"' :: acc) rest2
          else if e = '\\' then parseStringBody ('\\' :: acc) rest2
          else if e = '/' then parseStringBody ('/' :: acc) rest2
          else if e = 'b' then parseStringBody ('\x08' :: acc) rest2
          else if e = 'f' then parseStringBody ('\x0c' :: acc) rest2
          else if e = 'n' then parseStringBody ('\n' :: acc) rest2
          else if e = 'r' then parseStringBody ('\r' :: acc) rest2
          else if e = 't' then parseStringBody ('\t' :: acc) rest2
          else if e = 'u' then
            match rest2 with
            | h1 :: h2 :: h3 :: h4 :: rest3 =>
                match hexVal h1, hexVal h2, hexVal h3, hexVal h4 with
                | some a, some b, some c, some d =>
                    let n := ((a * 16 + b) * 16 + c) * 16 + d
                    parseStringBody (Char.ofNat n :: acc) rest3
                | _, _, _, _ => .error "Invalid unicode escape"
            | _ => .error "Invalid unicode escape"
          else .error "Invalid escape"
  | c :: rest =>
      if c.toNat < 32 then .error "Invalid control character"
      else parseStringBody (c :: acc) rest

/-- Longest digit run at the front of the input. -/
def takeDigits : List Char → List Char × List Char
  | [] => ([], [])
  | c :: cs =>
      if '0' ≤ c && c ≤ '9' then
        let (ds, rest) := takeDigits cs
        (c :: ds, rest)
      else ([], c :: cs)

/-- Digit run as a natural number. -/
def digitsToNat (ds : List Char) : Nat :=
  ds.foldl (fun acc c => acc * 10 + (c.toNat - '0'.toNat)) 0

/-- JSON number literal (integer part only: `-`? then `0` or a nonzero-led
digit run, with leading zeros rejected as `json.loads` does).  A following
`.`, `e` or `E` would start a float literal, which this model does not
represent; it is rejected here, whereas Python would produce a float —
an approximation that only changes which inputs count as valid JSON. -/
def parseNumber (cs : List Char) : Except String (Int × List Char) :=
  let (neg, cs1) : Bool × List Char :=
    match cs with
    | '-' :: t => (true, t)
    | _ => (false, cs)
  match takeDigits cs1 with
  | ([], _) => .error "Expecting value"
  | (ds, rest) =>
      if ds.length > 1 && ds.headD '0' = '0' then .error "Leading zeros are not allowed"
      else
        match rest with
        | '.' :: _ => .error "float literals are not modelled"
        | 'e' :: _ => .error "float literals are not modelled"
        | 'E' :: _ => .error "float literals are not modelled"
        | _ =>
            let n : Int := Int.ofNat (digitsToNat ds)
            .ok (if neg then -n else n, rest)

mutual

/-- One JSON value at the front of the input (`fuel` bounds recursion depth;
`json_loads` supplies enough for any input). -/
def parseVal : Nat → List Char → Except String (Json × List Char)
  | 0, _ => .error "Input too deeply nested"
  | fuel + 1, cs =>
      match skipWs cs with
      | [] => .error "Expecting value"
      | '"' :: rest =>
          match parseStringBody [] rest with
          | .ok (s, rest2) => .ok (.str s, rest2)
          | .error e => .error e
      | '\x7b' :: rest => parseObjBody fuel (skipWs rest) []
      | '[' :: rest =>
          match skipWs rest with
          | ']' :: rest2 => .ok (.arr [], rest2)
          | rest2 => parseArrItems fuel rest2 []
      | 't' :: 'r' :: 'u' :: 'e' :: rest => .ok (.bool true, rest)
      | 'f' :: 'a' :: 'l' :: 's' :: 'e' :: rest => .ok (.bool false, rest)
      | 'n' :: 'u' :: 'l' :: 'l' :: rest => .ok (.null, rest)
      | rest =>
          match parseNumber rest with
          | .ok (n, rest2) => .ok (.num n, rest2)
          | .error e => .error e

/-- Members of a JSON object after the opening brace (whitespace already
skipped); `acc` holds the members parsed so far. -/
def parseObjBody : Nat → List Char → List (String × Json) → Except String (Json × List Char)
  | 0, _, _ => .error "Input too deeply nested"
  | _ + 1, '\x7d' :: rest, acc => .ok (.obj acc, rest)
  | fuel + 1, cs, acc =>
      match cs with
      | '"' :: rest =>
          match parseStringBody [] rest with
          | .error e => .error e
          | .ok (k, rest2) =>
              match skipWs rest2 with
              | ':' :: rest3 =>
                  match parseVal fuel rest3 with
                  | .error e => .error e
                  | .ok (v, rest4) =>
                      let acc2 := setKey acc k v
                      match skipWs rest4 with
                      | ',' :: rest5 => parseObjBody fuel (skipWs rest5) acc2
                      | '\x7d' :: rest5 => .ok (.obj acc2, rest5)
                      | _ => .error "Expecting comma delimiter"
              | _ => .error "Expecting colon delimiter"
      | _ => .error "Expecting property name enclosed in double quotes"

/-- Elements of a JSON array after the opening bracket, first element not
yet parsed; `acc` holds the elements parsed so far, reversed. -/
def parseArrItems : Nat → List Char → List Json → Except String (Json × List Char)
  | 0, _, _ => .error "Input too deeply nested"
  | fuel + 1, cs, acc =>
      match parseVal fuel cs with
      | .error e => .error e
      | .ok (v, rest) =>
          match skipWs rest with
          | ',' :: rest2 => parseArrItems fuel rest2 (v :: acc)
          | ']' :: rest2 => .ok (.arr (v :: acc).reverse, rest2)
          | _ => .error "Expecting comma delimiter"

end

/-- `json.loads`: parse a complete JSON document, allowing surrounding
whitespace and rejecting trailing garbage. -/
def json_loads (s : String) : Except String Json :=
  match parseVal (s.length + 1) s.toList with
  | .error e => .error e
  | .ok (j, rest) =>
      if (skipWs rest).isEmpty then .ok j else .error "Extra data"

/-- Python `s.find(c)`: index (in characters) of the first occurrence,
`-1` when absent. -/
def strFind (s : String) (c : Char) : Int :=
  match s.toList.findIdx? (fun d => d == c) with
  | some i => Int.ofNat i
  | none => -1

/-- Python `s.rfind(c)`: index of the last occurrence, `-1` when absent. -/
def strRfind (s : String) (c : Char) : Int :=
  match s.toList.reverse.findIdx? (fun d => d == c) with
  | some i => Int.ofNat (s.toList.length - 1 - i)
  | none => -1

/-- Python slice `s[:n]` for `n ≥ 0`: the first `n` characters. -/
def strTake (s : String) (n : Nat) : String :=
  String.mk (s.toList.take n)

/-- Python slice `s[a:b]` for `0 ≤ a ≤ b`. -/
def strSlice (s : String) (a b : Int) : String :=
  String.mk ((s.toList.drop a.toNat).take (b - a).toNat)

/-- Python `s.lower()` (ASCII case fold, all the allowed extensions use). -/
def strLower (s : String) : String :=
  String.mk (s.toList.map Char.toLower)

/-- The condition `start_idx != -1 and end_idx > start_idx` of
`extract_text_from_image` (main.py:236), on the normalized model text. -/
def hasBraceSpan (s : String) : Bool :=
  strFind s '\x7b' != -1 && strRfind s '\x7d' + 1 > strFind s '\x7b'

/-- The slice `generated_text[start_idx:end_idx]` of main.py:237. -/
def braceSlice (s : String) : String :=
  strSlice s (strFind s '\x7b') (strRfind s '\x7d' + 1)

/-- A document `{"fields": [{"label": l, "value": v}, ...]}` built from
label/value string pairs, the shape every synthesized error path returns. -/
def fieldsDoc (lvs : List (String × String)) : Json :=
  .obj [("fields", .arr (lvs.map (fun lv => Json.obj [("label", .str lv.1), ("value", .str lv.2)])))]

/-- An HTTP response from the inference endpoint: status and raw body text
(`response.json()` is modelled as `json_loads` of the text). -/
structure HttpResponse where
  status_code : Nat
  text : String

/-- Join step for a list-shaped chat `content` (main.py:219-222):
`" ".join(item.get("text", "") if isinstance(item, dict) else str(item))`.
`join` raises `TypeError` when a dict supplies a non-string `"text"`. -/
def joinPartOne (item : Json) : Except PyExn String :=
  match item with
  | .obj kvs =>
      match (lookupKey kvs "text").getD (.str "") with
      | .str t => .ok t
      | _ => .error ⟨"TypeError", "sequence item: expected str instance"⟩
  | _ => .ok (pyStrTop item)

/-- All parts of a list-shaped chat `content`, first failure propagated. -/
def joinParts : List Json → Except PyExn (List String)
  | [] => .ok []
  | item :: items =>
      match joinPartOne item with
      | .error e => .error e
      | .ok part =>
          match joinParts items with
          | .error e => .error e
          | .ok rest => .ok (part :: rest)

/-- The list/non-list handling of `content` (main.py:218-224): a list is
joined into one string, anything else is used as-is. -/
def pyNormalizeContent (content : Json) : Except PyExn Json :=
  match content with
  | .arr items =>
      match joinParts items with
      | .error e => .error e
      | .ok parts => .ok (.str (String.intercalate " " parts))
  | c => .ok c

/-- The chain `result["choices"][0]["message"]["content"]` of main.py:217. -/
def pyChoicesContent (choices : Json) : Except PyExn Json :=
  match getItemNat choices 0 with
  | .error e => .error e
  | .ok c0 =>
      match getItemStr c0 "message" with
      | .error e => .error e
      | .ok msg => getItemStr msg "content"

/-- Normalization of the parsed 200-response payload to `generated_text`
(main.py:216-230).  The result is whatever Python value the chain produces;
later code raises if it is not a string. -/
def pyNormalize (result : Json) : Except PyExn Json :=
  match result with
  | .obj kvs =>
      match lookupKey kvs "choices" with
      | some choices =>
          match pyChoicesContent choices with
          | .error e => .error e
          | .ok content => pyNormalizeContent content
      | none =>
          .ok ((lookupKey kvs "generated_text").getD (.str (pyStrTop result)))
  | .arr (x :: _) => pyDictGet x "generated_text" (.str "")
  | r => .ok (.str (pyStrTop r))

/-- The `{`/`}` scan and best-effort JSON extraction applied to a string
`generated_text` (main.py:232-258); the inner `try` catches only
`json.JSONDecodeError`, so the `in`/subscript `TypeError`s escape. -/
def parseGeneratedStr (s : String) : Except PyExn Json :=
  if hasBraceSpan s then
    match json_loads (braceSlice s) with
    | .error e =>
        .ok (fieldsDoc [("JSON Parse Error", e), ("Raw Response", strTake s 300)])
    | .ok extracted_data =>
        match pyIn "fields" extracted_data with
        | .error e => .error e
        | .ok true =>
            match getItemStr extracted_data "fields" with
            | .error e => .error e
            | .ok (.arr _) => .ok extracted_data
            | .ok _ => .ok (fieldsDoc [("Parsing Error", "JSON structure is invalid")])
        | .ok false => .ok (fieldsDoc [("Parsing Error", "JSON structure is invalid")])
  else
    .ok (fieldsDoc
      [("Raw AI Response", strTake s 500),
       ("Note", "AI did not return valid JSON. Showing raw response.")])

/-- Main.py:232-258 on the raw `generated_text` value, which raises
`AttributeError` at `.find` when normalization produced a non-string. -/
def parseGenerated : Json → Except PyExn Json
  | .str s => parseGeneratedStr s
  | _ => .error ⟨"AttributeError", "object has no attribute find"⟩

/-- Body of the `try` of `extract_text_from_image` (main.py:153-258):
image open/encode, the network call, the status-code gates, payload
normalization and JSON extraction.  `imgLoad` is the outcome of opening and
JPEG-encoding the image, `net` the outcome of `requests.post`. -/
def extractImageTry (imgLoad : Except PyExn Unit) (net : Except PyExn HttpResponse) :
    Except PyExn Json :=
  match imgLoad with
  | .error e => .error e
  | .ok _ =>
      match net with
      | .error e => .error e
      | .ok response =>
          if response.status_code = 503 then
            .ok (fieldsDoc
              [("Model Status", "Model is loading, please try again in 20-30 seconds"),
               ("Status Code", "503")])
          else if response.status_code ≠ 200 then
            let error_msg := if response.text ≠ "" then response.text
                             else "HTTP " ++ toString response.status_code
            .ok (fieldsDoc
              [("API Error", "Hugging Face API returned an error"),
               ("Details", strTake error_msg 200),
               ("Status Code", toString response.status_code)])
          else
            match json_loads response.text with
            | .error e => .error ⟨"JSONDecodeError", e⟩
            | .ok result =>
                match pyNormalize result with
                | .error e => .error e
                | .ok generated_text => parseGenerated generated_text

/-- `extract_text_from_image` (main.py:142-266).  `hf_token` is the
credential found in the environment (`None` when every variant is unset);
the missing-credential `ValueError` is raised before the `try`, every other
failure is converted by the outer handler to an in-band field list. -/
def extract_text_from_image (hf_token : Option String) (imgLoad : Except PyExn Unit)
    (net : Except PyExn HttpResponse) : Except PyExn Json :=
  match hf_token with
  | none =>
      .error ⟨"ValueError",
        "HUGGINGFACE_API_KEY not found. Please configure your API key in a local .env or environment variable."⟩
  | some _ =>
      .ok (match extractImageTry imgLoad net with
        | .ok j => j
        | .error e => fieldsDoc [("Extraction Error", e.msg), ("Error Type", e.name)])

/-- The in-place label rewrite of main.py:126:
`field["label"] = f"Page \x7bpage_num\x7d - \x7bfield[\x27label\x27]\x7d"`.
Reading `field["label"]` raises on a non-dict field or a missing key; the
f-string renders the old label through `str()`. -/
def prefixFieldLabel (page_num : Nat) (f : Json) : Except PyExn Json :=
  match f with
  | .obj kvs =>
      match lookupKey kvs "label" with
      | some old =>
          .ok (.obj (setKey kvs "label"
            (.str ("Page " ++ toString page_num ++ " - " ++ pyStrTop old))))
      | none => .error ⟨"KeyError", "label"⟩
  | _ => .error ⟨"TypeError", "field is not a dict"⟩

/-- The inner `for field in page_data["fields"]` loop of main.py:125-127,
prefixing and collecting the fields of one page in order. -/
def prefixFieldsLoop (page_num : Nat) : List Json → Except PyExn (List Json)
  | [] => .ok []
  | f :: fs =>
      match prefixFieldLabel page_num f with
      | .error e => .error e
      | .ok f2 =>
          match prefixFieldsLoop page_num fs with
          | .error e => .error e
          | .ok rest => .ok (f2 :: rest)

/-- The per-page loop of main.py:116-130: `pageResults` are the outcomes of
`extract_text_from_image` on the rendered pages, `page_num` counts from 1,
`all_fields` accumulates the prefixed fields of earlier pages. -/
def pdfPagesLoop (page_num : Nat) (all_fields : List Json) :
    List (Except PyExn Json) → Except PyExn (List Json)
  | [] => .ok all_fields
  | p :: ps =>
      match p with
      | .error e => .error e
      | .ok page_data =>
          match pyIn "fields" page_data with
          | .error e => .error e
          | .ok true =>
              match getItemStr page_data "fields" with
              | .error e => .error e
              | .ok fv =>
                  match pyIterate fv with
                  | .error e => .error e
                  | .ok items =>
                      match prefixFieldsLoop page_num items with
                      | .error e => .error e
                      | .ok prefixed =>
                          pdfPagesLoop (page_num + 1) (all_fields ++ prefixed) ps
          | .ok false => pdfPagesLoop (page_num + 1) all_fields ps

/-- Body of the `try` of `extract_text_from_pdf` (main.py:104-132).
`render` is the outcome of `convert_from_path` together with the per-page
image-save/extract outcomes. -/
def extractPdfTry (render : Except PyExn (List (Except PyExn Json))) : Except PyExn Json :=
  match render with
  | .error e => .error e
  | .ok pages =>
      if pages.isEmpty then
        .ok (fieldsDoc [("PDF Error", "No pages found in PDF")])
      else
        match pdfPagesLoop 1 [] pages with
        | .error e => .error e
        | .ok all_fields =>
            .ok (.obj [("fields", .arr
              (if all_fields.isEmpty
               then [Json.obj [("label", .str "No Data"),
                               ("value", .str "No text extracted from PDF")]]
               else all_fields))])

/-- `extract_text_from_pdf` (main.py:92-140): total — the missing-renderer
case returns an informative field list and the outer handler converts every
exception (including a per-page missing-credential `ValueError`) to one. -/
def extract_text_from_pdf (pdfSupport : Bool)
    (render : Except PyExn (List (Except PyExn Json))) : Json :=
  if !pdfSupport then
    fieldsDoc
      [("PDF Error", "pdf2image library not available"),
       ("Solution", "Install poppler-utils to enable PDF support")]
  else
    match extractPdfTry render with
    | .ok j => j
    | .error e => fieldsDoc [("PDF Processing Error", e.msg), ("Error Type", e.name)]

/-- One row of the `records` table (database.py:20-28).  `raw_json` is kept
as the structured value: the `json.dumps` at insert and `json.loads` at read
are mutually inverse on these documents, so the TEXT column is modelled by
the value itself.  Timestamps are an abstract monotone clock. -/
structure DBRecord where
  id : Nat
  task_id : String
  raw_json : Json
  created_at : Nat
  updated_at : Nat

/-- The SQLite store: rows in insertion order plus the AUTOINCREMENT
counter for `id`. -/
structure Store where
  records : List DBRecord
  nextId : Nat

/-- `insert_record` (database.py:46-60).  The UNIQUE constraint on
`task_id` (database.py:23) makes the INSERT raise `sqlite3.IntegrityError`
when the task id is already present, leaving the table unchanged;
otherwise the row is appended and `cursor.lastrowid` returned. -/
def insert_record (s : Store) (task_id : String) (raw_json : Json) (now : Nat) :
    Except String (Store × Nat) :=
  if s.records.any (fun r => r.task_id == task_id) then
    .error "UNIQUE constraint failed: records.task_id"
  else
    .ok ({ records := s.records ++
            [{ id := s.nextId, task_id := task_id, raw_json := raw_json,
               created_at := now, updated_at := now }],
           nextId := s.nextId + 1 }, s.nextId)

/-- `get_all_records` (database.py:62-79): `SELECT * FROM records ORDER BY
created_at DESC`, modelled as a stable sort on descending `created_at`. -/
def get_all_records (s : Store) : List DBRecord :=
  s.records.mergeSort (fun a b => b.created_at ≤ a.created_at)

/-- `get_record_by_id` (database.py:81-96): `WHERE id = ?`, first match or
absence. -/
def get_record_by_id (s : Store) (record_id : Nat) : Option DBRecord :=
  s.records.find? (fun r => r.id == record_id)

/-- `get_record_by_task_id` (database.py:98-113): `WHERE task_id = ?`. -/
def get_record_by_task_id (s : Store) (task_id : String) : Option DBRecord :=
  s.records.find? (fun r => r.task_id == task_id)

/-- `update_record` (database.py:115-129): `UPDATE records SET raw_json = ?,
updated_at = ? WHERE id = ?`, returning `rowcount > 0`. -/
def update_record (s : Store) (record_id : Nat) (raw_json : Json) (now : Nat) :
    Store × Bool :=
  ({ s with records := s.records.map (fun r =>
       if r.id == record_id then { r with raw_json := raw_json, updated_at := now } else r) },
   decide (0 < s.records.countP (fun r => r.id == record_id)))

/-- `delete_record` (database.py:131-142): `DELETE FROM records WHERE
id = ?`, returning `rowcount > 0`. -/
def delete_record (s : Store) (record_id : Nat) : Store × Bool :=
  ({ s with records := s.records.filter (fun r => !(r.id == record_id)) },
   decide (0 < s.records.countP (fun r => r.id == record_id)))

/-- An `HTTPException(status_code, detail)` raised at the service boundary. -/
structure HTTPError where
  status_code : Nat
  detail : String
deriving Repr, DecidableEq

/-- Index of the last occurrence of `c` in `cs`, as a Python `rfind`. -/
def lastIdxOf (cs : List Char) (c : Char) : Int :=
  match cs.reverse.findIdx? (fun d => d == c) with
  | some i => Int.ofNat (cs.length - 1 - i)
  | none => -1

/-- `os.path.splitext` (posix): split at the last dot after the last `/`,
unless every character between them is a dot (so dotfiles such as
`.bashrc` keep an empty extension). -/
def splitext (p : String) : String × String :=
  let cs := p.toList
  let sepIndex := lastIdxOf cs '/'
  let dotIndex := lastIdxOf cs '.'
  if dotIndex > sepIndex then
    let fStart := (sepIndex + 1).toNat
    let between := (cs.drop fStart).take (dotIndex.toNat - fStart)
    if between.all (fun c => c == '.') then (p, "")
    else (String.mk (cs.take dotIndex.toNat), String.mk (cs.drop dotIndex.toNat))
  else (p, "")

/-- The allow-list of main.py:276. -/
def allowed_extensions : List String := [".png", ".jpg", ".jpeg", ".pdf"]

/-- Successful `/upload` response body (task id and record id; the literal
`status`/`message` strings carry no information). -/
structure UploadOk where
  task_id : String
  record_id : Nat
deriving Repr, DecidableEq

/-- The `/upload` endpoint `upload_file` (main.py:268-312).  `task_id` is
the generated UUID, `extractOutcome` the result of the dispatched
`extract_text_from_pdf` / `extract_text_from_image` call on the saved file
(an `.error` models an exception escaping it, which — like a failing
insert — the boundary handler turns into a 500). The store is returned
unchanged on every error path: no record is inserted. -/
def upload_file (filename : String) (task_id : String)
    (extractOutcome : Except PyExn Json) (s : Store) (now : Nat) :
    Store × Except HTTPError UploadOk :=
  if filename = "" then
    (s, .error ⟨400, "No file provided"⟩)
  else
    let file_ext := strLower (splitext filename).2
    if ¬ (file_ext ∈ allowed_extensions) then
      (s, .error ⟨400, "Invalid file type. Allowed: " ++ String.intercalate ", " allowed_extensions⟩)
    else
      match extractOutcome with
      | .error e => (s, .error ⟨500, "Processing error: " ++ e.msg⟩)
      | .ok extracted_data =>
          match insert_record s task_id extracted_data now with
          | .error e => (s, .error ⟨500, "Processing error: " ++ e⟩)
          | .ok (s2, record_id) => (s2, .ok ⟨task_id, record_id⟩)

/-- The `/result/\x7btask_id\x7d` endpoint `get_result` (main.py:314-330):
404 when the task id is unknown, otherwise the record (the Python handler
re-packs its fields into a response dict). -/
def get_result (s : Store) (task_id : String) : Except HTTPError DBRecord :=
  match get_record_by_task_id s task_id with
  | none => .error ⟨404, "Result not found"⟩
  | some r => .ok r

/-- The `/records/\x7brecord_id\x7d` GET endpoint `get_record`
(main.py:340-350). -/
def get_record (s : Store) (record_id : Nat) : Except HTTPError DBRecord :=
  match get_record_by_id s record_id with
  | none => .error ⟨404, "Record not found"⟩
  | some r => .ok r

/-- The PUT endpoint `update_record_endpoint` (main.py:352-368): 404 when
the id is unknown, 500 when the update then matches no row, otherwise the
re-fetched record. -/
def update_record_endpoint (s : Store) (record_id : Nat) (raw_json : Json) (now : Nat) :
    Store × Except HTTPError (Option DBRecord) :=
  match get_record_by_id s record_id with
  | none => (s, .error ⟨404, "Record not found"⟩)
  | some _ =>
      let su := update_record s record_id raw_json now
      if su.2 then (su.1, .ok (get_record_by_id su.1 record_id))
      else (su.1, .error ⟨500, "Failed to update record"⟩)

/-- The DELETE endpoint `delete_record_endpoint` (main.py:370-380): runs the
delete, then 404 when no row matched. -/
def delete_record_endpoint (s : Store) (record_id : Nat) :
    Store × Except HTTPError Nat :=
  let sd := delete_record s record_id
  if sd.2 then (sd.1, .ok record_id) else (sd.1, .error ⟨404, "Record not found"⟩)

/-- Claim C1 wording: the result is a dictionary containing a `"fields"`
key whose value is a list. -/
def FieldsShaped (j : Json) : Prop :=
  ∃ kvs l, j = Json.obj kvs ∧ lookupKey kvs "fields" = some (.arr l)

/-- Claim C1 wording: a label/value pair. -/
def isLabelValuePair (j : Json) : Bool :=
  match j with
  | .obj kvs => (lookupKey kvs "label").isSome && (lookupKey kvs "value").isSome
  | _ => false

/-- Claim C1 wording: a list of label/value pairs. -/
def isLabelValueList (j : Json) : Bool :=
  match j with
  | .arr xs => xs.all isLabelValuePair
  | _ => false

/-- Modelled from the words of claim C9: join the text parts of a
list-shaped chat `content` with spaces (defined when every part is a dict
carrying a string `"text"`). -/
def specJoinList : List Json → Option (List String)
  | [] => some []
  | item :: items =>
      match item with
      | .obj kvs =>
          match lookupKey kvs "text" with
          | some (.str t) => (specJoinList items).map (fun ts => t :: ts)
          | _ => none
      | _ => none

/-- Modelled from the words of claim C9: the normalization precedence —
chat-completion `choices[0].message.content` (joining multi-part content),
then list-style `generated_text`, then dict-style `generated_text` falling
back to the stringified dict, then the stringified payload.  `none` marks
payloads the claim does not assign a text to. -/
def normalizeSpec (payload : Json) : Option String :=
  match payload with
  | .obj kvs =>
      match lookupKey kvs "choices" with
      | some (.arr (c0 :: _)) =>
          match c0 with
          | .obj mkvs =>
              match lookupKey mkvs "message" with
              | some (.obj ckvs) =>
                  match lookupKey ckvs "content" with
                  | some (.str s) => some s
                  | some (.arr items) => (specJoinList items).map (String.intercalate " ")
                  | _ => none
              | _ => none
          | _ => none
      | some _ => none
      | none =>
          match lookupKey kvs "generated_text" with
          | some (.str s) => some s
          | some _ => none
          | none => some (pyStrTop payload)
  | .arr (x :: _) =>
      match x with
      | .obj kvs =>
          match lookupKey kvs "generated_text" with
          | some (.str s) => some s
          | _ => none
      | _ => none
  | r => some (pyStrTop r)

/-- Modelled from the words of claim C5: the field list of a page document. -/
def pageFieldsOf (p : Json) : List Json :=
  match p with
  | .obj kvs =>
      match lookupKey kvs "fields" with
      | some (.arr fl) => fl
      | _ => []
  | _ => []

/-- Modelled from the words of claim C5: prefix a field label with
`"Page N - "`. -/
def specPrefixLabel (n : Nat) (f : Json) : Json :=
  match f with
  | .obj kvs =>
      match lookupKey kvs "label" with
      | some (.str s) =>
          .obj (setKey kvs "label" (.str ("Page " ++ toString n ++ " - " ++ s)))
      | _ => f
  | _ => f

/-- Modelled from the words of claim C5: concatenation, in page order, of
each page's fields with labels prefixed by the 1-indexed page number. -/
def specPdfConcat : Nat → List Json → List Json
  | _, [] => []
  | n, p :: ps => (pageFieldsOf p).map (specPrefixLabel n) ++ specPdfConcat (n + 1) ps

/-- A page document as the claims discuss it: a dict whose `"fields"` is a
list of fields, each a dict with a string `"label"`. -/
def GoodField (f : Json) : Prop :=
  ∃ kvs s, f = Json.obj kvs ∧ lookupKey kvs "label" = some (.str s)

/-- A well-shaped page document for claim C5. -/
def GoodPage (p : Json) : Prop :=
  ∃ kvs fl, p = Json.obj kvs ∧ lookupKey kvs "fields" = some (.arr fl)
    ∧ ∀ f ∈ fl, GoodField f

/-- Store well-formedness: AUTOINCREMENT keeps every existing id below the
counter. -/
def StoreWF (s : Store) : Prop :=
  ∀ r ∈ s.records, r.id < s.nextId

/-- The task-id uniqueness invariant of the `records` table. -/
def UniqueTaskIds (s : Store) : Prop :=
  (s.records.map (fun r => r.task_id)).Nodup

/-- One call into the store layer, for invariant preservation over
arbitrary operation sequences. -/
inductive StoreOp where
  | insertOp (task_id : String) (doc : Json) (now : Nat)
  | updateOp (record_id : Nat) (doc : Json) (now : Nat)
  | deleteOp (record_id : Nat)

/-- Apply one store operation; a failing insert leaves the table as the
rolled-back transaction does. -/
def applyOp (s : Store) : StoreOp → Store
  | .insertOp tid doc now =>
      match insert_record s tid doc now with
      | .ok sr => sr.1
      | .error _ => s
  | .updateOp rid doc now => (update_record s rid doc now).1
  | .deleteOp rid => (delete_record s rid).1

/-- C7: For every sequence of insertions (hence every store state),
`get_all_records` returns all records — a permutation of the table —
ordered by `created_at` descending (each record's `created_at` is ≥ the
next one's). -/
theorem c7_get_all_records_ordered_desc (s : Store) :
    (get_all_records s).Pairwise (fun a b => b.created_at ≤ a.created_at)
      ∧ (get_all_records s).Perm s.records := by
  unfold get_all_records
  constructor
  · have h := @List.sorted_mergeSort DBRecord
      (fun a b : DBRecord => decide (b.created_at ≤ a.created_at))
      (fun a b c hab hbc => by
        simp only [decide_eq_true_eq] at hab hbc ⊢
        omega)
      (fun a b => by
        simp only [Bool.or_eq_true, decide_eq_true_eq]
        omega)
      s.records
    exact h.imp (fun hab => by simpa using hab)
  · exact List.mergeSort_perm _ _

/-- Unfolding of a successful insert: the task id was fresh, the returned
id is the counter, and the new store appends the one new row. -/
theorem insert_ok_dest {s : Store} {tid : String} {doc : Json} {now : Nat}
    {s2 : Store} {rid : Nat}
    (hins : insert_record s tid doc now = .ok (s2, rid)) :
    s.records.any (fun r => r.task_id == tid) = false
    ∧ rid = s.nextId
    ∧ s2 = ⟨s.records ++ [⟨s.nextId, tid, doc, now, now⟩], s.nextId + 1⟩ := by
  unfold insert_record at hins
  split at hins
  · simp at hins
  · rename_i hany
    simp only [Except.ok.injEq, Prod.mk.injEq] at hins
    exact ⟨by simpa using hany, hins.2.symm, hins.1.symm⟩

/-- C2: inserting a `{fields: [...]}` document under a fresh task id and
reading it back by the returned record id, or by the task id, yields a
record whose `raw_json` equals the inserted document (freshness is
witnessed by the insert succeeding). -/
theorem c2_insert_get_roundtrip (s : Store) (tid : String) (doc : Json) (now : Nat)
    (s2 : Store) (rid : Nat) (hwf : StoreWF s)
    (hins : insert_record s tid doc now = .ok (s2, rid)) :
    (∃ r, get_record_by_id s2 rid = some r ∧ r.raw_json = doc ∧ r.task_id = tid)
    ∧ ∃ r, get_record_by_task_id s2 tid = some r ∧ r.raw_json = doc ∧ r.id = rid := by
  obtain ⟨hany, hrid, hs2⟩ := insert_ok_dest hins
  subst hrid hs2
  constructor
  · refine ⟨⟨s.nextId, tid, doc, now, now⟩, ?_, rfl, rfl⟩
    unfold get_record_by_id
    rw [List.find?_append]
    have hnone : s.records.find? (fun r => r.id == s.nextId) = none :=
      List.find?_eq_none.2 (fun r hr => by
        have := hwf r hr
        simp only [beq_iff_eq]
        omega)
    simp [hnone]
  · refine ⟨⟨s.nextId, tid, doc, now, now⟩, ?_, rfl, rfl⟩
    unfold get_record_by_task_id
    rw [List.find?_append]
    have hfresh : ∀ r ∈ s.records, ¬(r.task_id == tid) = true := by
      intro r hr
      simpa using List.any_eq_false.1 hany r hr
    have hnone : s.records.find? (fun r => r.task_id == tid) = none :=
      List.find?_eq_none.2 hfresh
    simp [hnone]

/-- Insertion preserves task-id uniqueness. -/
theorem insert_preserves_unique {s : Store} {tid : String} {doc : Json} {now : Nat}
    {s2 : Store} {rid : Nat}
    (hins : insert_record s tid doc now = .ok (s2, rid))
    (hu : UniqueTaskIds s) : UniqueTaskIds s2 := by
  obtain ⟨hany, _, hs2⟩ := insert_ok_dest hins
  subst hs2
  unfold UniqueTaskIds at hu ⊢
  rw [List.map_append, List.nodup_append]
  refine ⟨hu, by simp, ?_⟩
  intro a ha
  obtain ⟨r, hr, hra⟩ := List.mem_map.1 ha
  have hne := List.any_eq_false.1 hany r hr
  simp only [beq_iff_eq] at hne
  simp only [List.map_cons, List.map_nil, List.mem_singleton]
  intro hcontra
  exact hne (by rw [hra, hcontra])

/-- Updates do not touch task ids. -/
theorem update_preserves_unique (s : Store) (rid : Nat) (doc : Json) (now : Nat)
    (hu : UniqueTaskIds s) : UniqueTaskIds (update_record s rid doc now).1 := by
  unfold UniqueTaskIds at hu ⊢
  unfold update_record
  simp only [List.map_map]
  have hsame : ((fun r : DBRecord => r.task_id) ∘ fun r : DBRecord =>
      if r.id == rid then { r with raw_json := doc, updated_at := now } else r)
      = fun r : DBRecord => r.task_id := by
    funext r
    simp only [Function.comp_apply]
    split <;> rfl
  rw [hsame]
  exact hu

/-- Deletion keeps a sublist of the rows. -/
theorem delete_preserves_unique (s : Store) (rid : Nat)
    (hu : UniqueTaskIds s) : UniqueTaskIds (delete_record s rid).1 := by
  unfold UniqueTaskIds at hu ⊢
  unfold delete_record
  exact hu.sublist ((List.filter_sublist _).map _)

/-- Every store-layer call preserves task-id uniqueness. -/
theorem applyOp_preserves_unique (s : Store) (op : StoreOp)
    (hu : UniqueTaskIds s) : UniqueTaskIds (applyOp s op) := by
  cases op with
  | insertOp tid doc now =>
      simp only [applyOp]
      cases hins : insert_record s tid doc now with
      | ok sr =>
          obtain ⟨s2, rid⟩ := sr
          exact insert_preserves_unique hins hu
      | error e => exact hu
  | updateOp rid doc now => exact update_preserves_unique s rid doc now hu
  | deleteOp rid => exact delete_preserves_unique s rid hu

/-- Any sequence of store operations preserves task-id uniqueness. -/
theorem foldl_applyOp_unique (ops : List StoreOp) (s : Store)
    (hu : UniqueTaskIds s) : UniqueTaskIds (ops.foldl applyOp s) := by
  induction ops generalizing s with
  | nil => exact hu
  | cons op rest ih => exact ih _ (applyOp_preserves_unique s op hu)

/-- C3: inserting a record whose task id is already present fails with the
store-level uniqueness error, and — starting from a store with unique task
ids — any sequence of insert/update/delete operations leaves the task ids
unique (duplicate inserts are rejected, so no duplicates ever appear). -/
theorem c3_task_id_uniqueness (s : Store) (tid : String) (doc : Json) (now : Nat)
    (ops : List StoreOp)
    (hdup : s.records.any (fun r => r.task_id == tid) = true)
    (hu : UniqueTaskIds s) :
    insert_record s tid doc now = .error "UNIQUE constraint failed: records.task_id"
    ∧ UniqueTaskIds (ops.foldl applyOp s) := by
  constructor
  · unfold insert_record
    simp [hdup]
  · exact foldl_applyOp_unique ops s hu

/-- C6: an unknown task id or record id yields 404 from the lookup
endpoints; update and delete on a non-existent id report `false` at the
store layer (surfaced as 404 by the endpoints); the records are unchanged
in every case. -/
theorem c6_unknown_ids_404_no_mutation (s : Store) (tid : String) (rid : Nat)
    (doc : Json) (now : Nat)
    (htid : ∀ r ∈ s.records, r.task_id ≠ tid)
    (hrid : ∀ r ∈ s.records, r.id ≠ rid) :
    get_result s tid = .error ⟨404, "Result not found"⟩
    ∧ get_record s rid = .error ⟨404, "Record not found"⟩
    ∧ update_record s rid doc now = (s, false)
    ∧ delete_record s rid = (s, false)
    ∧ update_record_endpoint s rid doc now = (s, .error ⟨404, "Record not found"⟩)
    ∧ delete_record_endpoint s rid = (s, .error ⟨404, "Record not found"⟩) := by
  have hfind_t : s.records.find? (fun r => r.task_id == tid) = none :=
    List.find?_eq_none.2 (fun r hr => by simpa using htid r hr)
  have hfind_i : s.records.find? (fun r => r.id == rid) = none :=
    List.find?_eq_none.2 (fun r hr => by simpa using hrid r hr)
  have hcount : s.records.countP (fun r => r.id == rid) = 0 :=
    List.countP_eq_zero.2 (fun r hr => by simpa using hrid r hr)
  have hmap : s.records.map (fun r =>
      if r.id == rid then { r with raw_json := doc, updated_at := now } else r)
      = s.records := by
    have h1 : ∀ r ∈ s.records,
        (if r.id == rid then { r with raw_json := doc, updated_at := now } else r) = id r := by
      intro r hr
      have : (r.id == rid) = false := by simpa using hrid r hr
      simp [this]
    rw [List.map_congr_left h1, List.map_id]
  have hfilter : s.records.filter (fun r => !(r.id == rid)) = s.records :=
    List.filter_eq_self.2 (fun r hr => by simpa using hrid r hr)
  have hupd : update_record s rid doc now = (s, false) := by
    unfold update_record
    rw [hmap, hcount]
    rfl
  have hdel : delete_record s rid = (s, false) := by
    unfold delete_record
    rw [hfilter, hcount]
    rfl
  refine ⟨?_, ?_, hupd, hdel, ?_, ?_⟩
  · unfold get_result get_record_by_task_id
    rw [hfind_t]
  · unfold get_record get_record_by_id
    rw [hfind_i]
  · unfold update_record_endpoint get_record_by_id
    rw [hfind_i]
  · unfold delete_record_endpoint
    rw [hdel]
    rfl

/-- Witness for C6 on a one-row store and identifiers not in it. -/
theorem c6_unknown_ids_404_no_mutation_witness :
    get_result ⟨[⟨1, "t1", fieldsDoc [], 0, 0⟩], 2⟩ "does-not-exist"
        = .error ⟨404, "Result not found"⟩
    ∧ get_record ⟨[⟨1, "t1", fieldsDoc [], 0, 0⟩], 2⟩ 999999
        = .error ⟨404, "Record not found"⟩
    ∧ update_record ⟨[⟨1, "t1", fieldsDoc [], 0, 0⟩], 2⟩ 999999 (fieldsDoc []) 7
        = (⟨[⟨1, "t1", fieldsDoc [], 0, 0⟩], 2⟩, false)
    ∧ delete_record ⟨[⟨1, "t1", fieldsDoc [], 0, 0⟩], 2⟩ 999999
        = (⟨[⟨1, "t1", fieldsDoc [], 0, 0⟩], 2⟩, false)
    ∧ update_record_endpoint ⟨[⟨1, "t1", fieldsDoc [], 0, 0⟩], 2⟩ 999999 (fieldsDoc []) 7
        = (⟨[⟨1, "t1", fieldsDoc [], 0, 0⟩], 2⟩, .error ⟨404, "Record not found"⟩)
    ∧ delete_record_endpoint ⟨[⟨1, "t1", fieldsDoc [], 0, 0⟩], 2⟩ 999999
        = (⟨[⟨1, "t1", fieldsDoc [], 0, 0⟩], 2⟩, .error ⟨404, "Record not found"⟩) :=
  c6_unknown_ids_404_no_mutation ⟨[⟨1, "t1", fieldsDoc [], 0, 0⟩], 2⟩ "does-not-exist"
    999999 (fieldsDoc []) 7
    (by intro r hr; simp at hr; rw [hr]; decide)
    (by intro r hr; simp at hr; rw [hr]; decide)

/-- C4: an upload whose (case-insensitively lowered) extension is outside
the allow-list gets a 400 with the store untouched, while any non-empty
filename whose lowered extension is allowed passes the gate: the outcome is
never a 400. -/
theorem c4_extension_gate (filename task_id : String) (ex : Except PyExn Json)
    (s : Store) (now : Nat) :
    (strLower (splitext filename).2 ∉ allowed_extensions →
      (upload_file filename task_id ex s now).1 = s
      ∧ ∃ d, (upload_file filename task_id ex s now).2 = .error ⟨400, d⟩)
    ∧ (filename ≠ "" → strLower (splitext filename).2 ∈ allowed_extensions →
      ∀ d, (upload_file filename task_id ex s now).2 ≠ .error ⟨400, d⟩) := by
  constructor
  · intro hext
    by_cases hfn : filename = ""
    · exact ⟨by simp [upload_file, hfn], "No file provided", by simp [upload_file, hfn]⟩
    · refine ⟨?_, "Invalid file type. Allowed: " ++ String.intercalate ", " allowed_extensions, ?_⟩ <;>
        simp [upload_file, hfn, hext]
  · intro hfn hext d
    unfold upload_file
    rw [if_neg hfn, if_neg (not_not_intro hext)]
    cases ex with
    | error e => simp
    | ok doc =>
        cases hins : insert_record s task_id doc now with
        | error e => simp [hins]
        | ok sr =>
            obtain ⟨s2, rid⟩ := sr
            simp [hins]

/-- Witness for C4: a `.txt` upload is rejected with 400 and no insert; a
`.PNG` upload passes the gate. -/
theorem c4_extension_gate_witness :
    ((upload_file "notes.txt" "t1" (.ok (fieldsDoc [])) ⟨[], 1⟩ 0).1 = ⟨[], 1⟩
      ∧ ∃ d, (upload_file "notes.txt" "t1" (.ok (fieldsDoc [])) ⟨[], 1⟩ 0).2 = .error ⟨400, d⟩)
    ∧ ∀ d, (upload_file "scan.PNG" "t1" (.ok (fieldsDoc [])) ⟨[], 1⟩ 0).2 ≠ .error ⟨400, d⟩ :=
  ⟨(c4_extension_gate "notes.txt" "t1" (.ok (fieldsDoc [])) ⟨[], 1⟩ 0).1 (by decide),
   (c4_extension_gate "scan.PNG" "t1" (.ok (fieldsDoc [])) ⟨[], 1⟩ 0).2 (by decide) (by decide)⟩


/-- When the claim-side join is defined, the code-side join computes it. -/
theorem joinParts_of_spec (items : List Json) (ts : List String)
    (h : specJoinList items = some ts) : joinParts items = .ok ts := by
  induction items generalizing ts with
  | nil =>
      simp only [specJoinList, Option.some.injEq] at h
      subst h
      rfl
  | cons item rest ih =>
      cases item with
      | obj kvs =>
          simp only [specJoinList] at h
          cases hl : lookupKey kvs "text" with
          | none => rw [hl] at h; simp at h
          | some v =>
              rw [hl] at h
              cases v with
              | str t =>
                  simp only [Option.map_eq_some'] at h
                  obtain ⟨ts2, hrest, hts⟩ := h
                  subst hts
                  simp [joinParts, joinPartOne, hl, ih ts2 hrest]
              | null => simp at h
              | bool b => simp at h
              | num n => simp at h
              | arr a => simp at h
              | obj o => simp at h
      | null => simp [specJoinList] at h
      | bool b => simp [specJoinList] at h
      | num n => simp [specJoinList] at h
      | str s2 => simp [specJoinList] at h
      | arr a => simp [specJoinList] at h

/-- C9: the normalization of a 200-response payload to a single text string
follows the claimed precedence — chat `choices[0].message.content` (with
space-joined multi-part content), then list-style `generated_text`, then
dict-style `generated_text` with stringified-dict fallback, then the
stringified payload: wherever the claimed precedence assigns a text, the
code computes exactly that text. -/
theorem c9_normalization_precedence (payload : Json) (s : String)
    (h : normalizeSpec payload = some s) :
    pyNormalize payload = .ok (.str s) := by
  cases payload with
  | obj kvs =>
      simp only [normalizeSpec] at h
      cases hch : lookupKey kvs "choices" with
      | some c =>
          rw [hch] at h
          cases c with
          | arr cs =>
              cases cs with
              | nil => simp at h
              | cons c0 crest =>
                  cases c0 with
                  | obj mkvs =>
                      simp only [] at h
                      cases hm : lookupKey mkvs "message" with
                      | none => rw [hm] at h; simp at h
                      | some m =>
                          rw [hm] at h
                          cases m with
                          | obj ckvs =>
                              simp only [] at h
                              cases hco : lookupKey ckvs "content" with
                              | none => rw [hco] at h; simp at h
                              | some content =>
                                  rw [hco] at h
                                  cases content with
                                  | str s0 =>
                                      simp only [Option.some.injEq] at h
                                      subst h
                                      simp [pyNormalize, hch, pyChoicesContent,
                                        getItemNat, getItemStr, hm, hco,
                                        pyNormalizeContent]
                                  | arr items =>
                                      simp only [Option.map_eq_some'] at h
                                      obtain ⟨ts, hjoin, hs⟩ := h
                                      subst hs
                                      simp [pyNormalize, hch, pyChoicesContent,
                                        getItemNat, getItemStr, hm, hco,
                                        pyNormalizeContent,
                                        joinParts_of_spec items ts hjoin]
                                  | null => simp at h
                                  | bool b => simp at h
                                  | num n => simp at h
                                  | obj okvs => simp at h
                          | null => simp at h
                          | bool b => simp at h
                          | num n => simp at h
                          | str s2 => simp at h
                          | arr a => simp at h
                  | null => simp at h
                  | bool b => simp at h
                  | num n => simp at h
                  | str s2 => simp at h
                  | arr a => simp at h
          | null => simp at h
          | bool b => simp at h
          | num n => simp at h
          | str s2 => simp at h
          | obj okvs => simp at h
      | none =>
          rw [hch] at h
          cases hg : lookupKey kvs "generated_text" with
          | none =>
              rw [hg] at h
              simp only [Option.some.injEq] at h
              subst h
              simp [pyNormalize, hch, hg]
          | some g =>
              rw [hg] at h
              cases g with
              | str s0 =>
                  simp only [Option.some.injEq] at h
                  subst h
                  simp [pyNormalize, hch, hg]
              | null => simp at h
              | bool b => simp at h
              | num n => simp at h
              | arr a => simp at h
              | obj okvs => simp at h
  | arr xs =>
      cases xs with
      | nil =>
          simp only [normalizeSpec, Option.some.injEq] at h
          subst h
          rfl
      | cons x rest =>
          simp only [normalizeSpec] at h
          cases x with
          | obj kvs =>
              simp only [] at h
              cases hg : lookupKey kvs "generated_text" with
              | none => rw [hg] at h; simp at h
              | some g =>
                  rw [hg] at h
                  cases g with
                  | str s0 =>
                      simp only [Option.some.injEq] at h
                      subst h
                      simp [pyNormalize, pyDictGet, hg]
                  | null => simp at h
                  | bool b => simp at h
                  | num n => simp at h
                  | arr a => simp at h
                  | obj okvs => simp at h
          | null => simp at h
          | bool b => simp at h
          | num n => simp at h
          | str s2 => simp at h
          | arr a => simp at h
  | null =>
      simp only [normalizeSpec, Option.some.injEq] at h
      subst h
      rfl
  | bool b =>
      simp only [normalizeSpec, Option.some.injEq] at h
      subst h
      rfl
  | num n =>
      simp only [normalizeSpec, Option.some.injEq] at h
      subst h
      rfl
  | str s0 =>
      simp only [normalizeSpec, Option.some.injEq] at h
      subst h
      rfl

/-- Witness for C9 at a chat-completion payload with list-shaped content. -/
theorem c9_normalization_precedence_witness :
    pyNormalize
      (Json.obj
        [("choices",
          Json.arr
            [Json.obj
              [("message",
                Json.obj
                  [("content",
                    Json.arr
                      [Json.obj [("text", Json.str "part one")],
                       Json.obj [("text", Json.str "part two")]])])]])])
      = .ok (.str "part one part two") :=
  c9_normalization_precedence _ _ rfl

/-- Every synthesized document is a dict with a `"fields"` list. -/
theorem fieldsDoc_shaped (lvs : List (String × String)) : FieldsShaped (fieldsDoc lvs) :=
  ⟨_, _, rfl, rfl⟩

/-- The brace-scan step never raises anything but the dict-membership and
subscript `TypeError`s, and every value it returns is a fields dict. -/
theorem parseGeneratedStr_shape (s : String) :
    (∃ e, parseGeneratedStr s = .error e)
    ∨ ∃ j, parseGeneratedStr s = .ok j ∧ FieldsShaped j := by
  unfold parseGeneratedStr
  split
  · split
    · right
      exact ⟨_, rfl, fieldsDoc_shaped _⟩
    · rename_i extracted_data hload
      split
      · rename_i e hin
        left
        exact ⟨e, rfl⟩
      · rename_i hin
        split
        · rename_i e hget
          left
          exact ⟨e, rfl⟩
        · rename_i l hget
          right
          refine ⟨extracted_data, rfl, ?_⟩
          unfold getItemStr at hget
          cases extracted_data with
          | obj kvs =>
              simp only [] at hget
              cases hlk : lookupKey kvs "fields" with
              | none => rw [hlk] at hget; simp at hget
              | some v =>
                  rw [hlk] at hget
                  simp only [Except.ok.injEq] at hget
                  exact ⟨kvs, l, rfl, by rw [hlk, hget]⟩
          | null => simp at hget
          | bool b => simp at hget
          | num n => simp at hget
          | str s2 => simp at hget
          | arr a => simp at hget
        · right
          exact ⟨_, rfl, fieldsDoc_shaped _⟩
      · right
        exact ⟨_, rfl, fieldsDoc_shaped _⟩
  · right
    exact ⟨_, rfl, fieldsDoc_shaped _⟩

/-- The whole `try` body of the image extractor either raises or returns a
fields dict. -/
theorem extractImageTry_shape (imgLoad : Except PyExn Unit)
    (net : Except PyExn HttpResponse) :
    (∃ e, extractImageTry imgLoad net = .error e)
    ∨ ∃ j, extractImageTry imgLoad net = .ok j ∧ FieldsShaped j := by
  unfold extractImageTry
  cases imgLoad with
  | error e => exact .inl ⟨e, rfl⟩
  | ok u =>
      cases net with
      | error e => exact .inl ⟨e, rfl⟩
      | ok response =>
          simp only []
          by_cases h503 : response.status_code = 503
          · simp only [h503, if_pos rfl]
            right
            exact ⟨_, rfl, fieldsDoc_shaped _⟩
          · rw [if_neg h503]
            by_cases h200 : response.status_code = 200
            · rw [if_neg (by simp [h200])]
              cases hload : json_loads response.text with
              | error e => exact .inl ⟨_, rfl⟩
              | ok result =>
                  simp only []
                  cases hnorm : pyNormalize result with
                  | error e => exact .inl ⟨e, rfl⟩
                  | ok gt =>
                      cases gt with
                      | str s => exact parseGeneratedStr_shape s
                      | null => exact .inl ⟨_, rfl⟩
                      | bool b => exact .inl ⟨_, rfl⟩
                      | num n => exact .inl ⟨_, rfl⟩
                      | arr a => exact .inl ⟨_, rfl⟩
                      | obj kvs => exact .inl ⟨_, rfl⟩
            · rw [if_pos (by simp [h200])]
              right
              exact ⟨_, rfl, fieldsDoc_shaped _⟩

/-- C1 (amended): with a credential present, for every image-load outcome
and every upstream response — 503, other non-200, 200 with parseable JSON,
200 without — the extractor never raises and always returns a dict with a
`"fields"` list.  (The elements of that list are label/value pairs on every
synthesized path, but a 200 response whose extracted JSON already has a
`"fields"` list is returned verbatim, so its elements may have any shape —
see the counterexample.) -/
theorem c1_uniform_fields_contract (tok : String) (imgLoad : Except PyExn Unit)
    (net : Except PyExn HttpResponse) :
    ∃ j, extract_text_from_image (some tok) imgLoad net = .ok j ∧ FieldsShaped j := by
  unfold extract_text_from_image
  rcases extractImageTry_shape imgLoad net with ⟨e, he⟩ | ⟨j, hj, hshape⟩
  · rw [he]
    exact ⟨_, rfl, fieldsDoc_shaped _⟩
  · rw [hj]
    exact ⟨j, rfl, hshape⟩

/-- Counterexample to C1 as stated: a 200 response whose body is the JSON
string `"\x7b\"fields\": [1]\x7d"` normalizes to a text whose brace span
parses to a dict with a `"fields"` list, which is returned verbatim — and
its element `1` is not a label/value pair. -/
theorem c1_counterexample :
    extract_text_from_image (some "k") (.ok ())
        (.ok ⟨200, "\"\x7b\\\"fields\\\": [1]\x7d\""⟩)
      = .ok (Json.obj [("fields", Json.arr [Json.num 1])])
    ∧ isLabelValueList (Json.arr [Json.num 1]) = false :=
  ⟨rfl, rfl⟩

/-- C8: a 200 response whose normalized text has no `\x7b`..`\x7d` span
yields the raw-response field list truncated to 500 characters; a brace
span that fails to parse yields the parse-error field list truncated to 300
characters; and in the first case the upload endpoint still answers with
success, not an error. -/
theorem c8_malformed_upstream_text (tok : String) (resp : HttpResponse)
    (result : Json) (s : String) (tid : String) (store : Store) (now : Nat)
    (s2 : String) (e2 : PyExn)
    (h200 : resp.status_code = 200)
    (hjson : json_loads resp.text = .ok result)
    (hnorm : pyNormalize result = .ok (.str s))
    (hnb : hasBraceSpan s = false)
    (hfresh : store.records.any (fun r => r.task_id == tid) = false)
    (hbs2 : hasBraceSpan s2 = true)
    (hload2 : json_loads (braceSlice s2) = .error e2.msg) :
    extract_text_from_image (some tok) (.ok ()) (.ok resp)
      = .ok (fieldsDoc
          [("Raw AI Response", strTake s 500),
           ("Note", "AI did not return valid JSON. Showing raw response.")])
    ∧ (strTake s 500).length ≤ 500
    ∧ parseGeneratedStr s2
        = .ok (fieldsDoc
            [("JSON Parse Error", e2.msg), ("Raw Response", strTake s2 300)])
    ∧ (strTake s2 300).length ≤ 300
    ∧ (upload_file "scan.png" tid
        (extract_text_from_image (some tok) (.ok ()) (.ok resp)) store now).2
      = .ok ⟨tid, store.nextId⟩ := by
  have hmain : extract_text_from_image (some tok) (.ok ()) (.ok resp)
      = .ok (fieldsDoc
          [("Raw AI Response", strTake s 500),
           ("Note", "AI did not return valid JSON. Showing raw response.")]) := by
    unfold extract_text_from_image extractImageTry
    simp only []
    rw [h200]
    rw [if_neg (by decide), if_neg (by simp)]
    rw [hjson]
    simp only []
    rw [hnorm]
    simp only [parseGenerated]
    unfold parseGeneratedStr
    rw [hnb]
    rfl
  refine ⟨hmain, ?_, ?_, ?_, ?_⟩
  · exact List.length_take_le 500 s.toList
  · unfold parseGeneratedStr
    rw [hbs2, hload2]
    simp
  · exact List.length_take_le 300 s2.toList
  · rw [hmain]
    unfold upload_file
    rw [if_neg (by decide)]
    simp only []
    rw [if_neg (by decide)]
    unfold insert_record
    rw [hfresh]
    rfl

/-- Witness for C8 at a 200 response whose body is the JSON string
`"hello"` (no braces), a parse-failing brace span, and an empty store. -/
theorem c8_malformed_upstream_text_witness :
    extract_text_from_image (some "k") (.ok ()) (.ok ⟨200, "\"hello\""⟩)
      = .ok (fieldsDoc
          [("Raw AI Response", strTake "hello" 500),
           ("Note", "AI did not return valid JSON. Showing raw response.")])
    ∧ (strTake "hello" 500).length ≤ 500
    ∧ parseGeneratedStr "\x7bx\x7d"
        = .ok (fieldsDoc
            [("JSON Parse Error", "Expecting property name enclosed in double quotes"),
             ("Raw Response", strTake "\x7bx\x7d" 300)])
    ∧ (strTake "\x7bx\x7d" 300).length ≤ 300
    ∧ (upload_file "scan.png" "t1"
        (extract_text_from_image (some "k") (.ok ()) (.ok ⟨200, "\"hello\""⟩)) ⟨[], 1⟩ 0).2
      = .ok ⟨"t1", 1⟩ :=
  c8_malformed_upstream_text "k" ⟨200, "\"hello\""⟩ (.str "hello") "hello" "t1"
    ⟨[], 1⟩ 0 "\x7bx\x7d"
    ⟨"JSONDecodeError", "Expecting property name enclosed in double quotes"⟩
    rfl rfl rfl rfl rfl rfl rfl

/-- On fields that are dicts with a string label, the per-page prefix loop
computes exactly the claim-side prefixing. -/
theorem prefixFieldsLoop_good (n : Nat) (fl : List Json)
    (h : ∀ f ∈ fl, GoodField f) :
    prefixFieldsLoop n fl = .ok (fl.map (specPrefixLabel n)) := by
  induction fl with
  | nil => rfl
  | cons f fs ih =>
      obtain ⟨kvs, s0, hf, hlk⟩ := h f (by simp)
      subst hf
      unfold prefixFieldsLoop prefixFieldLabel
      simp only []
      rw [hlk]
      simp only []
      rw [ih (fun g hg => h g (by simp [hg]))]
      simp [specPrefixLabel, hlk, pyStrTop]

/-- On well-shaped pages, the page loop appends exactly the claim-side
concatenation. -/
theorem pdfPagesLoop_good (pages : List Json) (n : Nat) (acc : List Json)
    (h : ∀ p ∈ pages, GoodPage p) :
    pdfPagesLoop n acc (pages.map Except.ok) = .ok (acc ++ specPdfConcat n pages) := by
  induction pages generalizing n acc with
  | nil => simp [pdfPagesLoop, specPdfConcat]
  | cons p ps ih =>
      obtain ⟨kvs, fl, hp, hlk, hfl⟩ := h p (by simp)
      subst hp
      unfold pdfPagesLoop
      simp only [List.map_cons]
      rw [show pyIn "fields" (Json.obj kvs) = .ok true by simp [pyIn, hlk]]
      simp only []
      rw [show getItemStr (Json.obj kvs) "fields" = .ok (.arr fl) by simp [getItemStr, hlk]]
      simp only [pyIterate]
      rw [prefixFieldsLoop_good n fl hfl]
      simp only []
      rw [ih (n + 1) (acc ++ fl.map (specPrefixLabel n))
        (fun q hq => h q (by simp [hq]))]
      simp [specPdfConcat, pageFieldsOf, hlk, List.append_assoc]

/-- C5 (amended): for a multi-page PDF whose pages'
extractions are well-shaped field-list documents with string labels, and
at least one page contributes a field, the result is exactly the
page-ordered concatenation with `"Page N - "`-prefixed labels.  (When every
page contributes zero fields the code returns the `"No Data"` placeholder
instead of the empty concatenation — see the counterexample.) -/
theorem c5_pdf_page_concat (pages : List Json)
    (hne : pages ≠ []) (hgood : ∀ p ∈ pages, GoodPage p)
    (hsome : specPdfConcat 1 pages ≠ []) :
    extract_text_from_pdf true (.ok (pages.map Except.ok))
      = Json.obj [("fields", Json.arr (specPdfConcat 1 pages))] := by
  unfold extract_text_from_pdf extractPdfTry
  simp only []
  cases pages with
  | nil => exact absurd rfl hne
  | cons p ps =>
      simp only [List.map_cons, List.isEmpty_cons, Bool.false_eq_true, if_false]
      rw [show (Except.ok p : Except PyExn Json) :: ps.map Except.ok
            = (p :: ps).map Except.ok by simp]
      rw [pdfPagesLoop_good (p :: ps) 1 [] hgood]
      simp only [List.nil_append]
      have hie : (specPdfConcat 1 (p :: ps)).isEmpty = false := by
        cases hsp : specPdfConcat 1 (p :: ps) with
        | nil => exact absurd hsp hsome
        | cons a l => rfl
      rw [hie]
      simp

/-- Witness for C5 at the two-page example of the specification. -/
theorem c5_pdf_page_concat_witness :
    extract_text_from_pdf true
        (.ok [.ok (fieldsDoc [("Name", "Jon")]), .ok (fieldsDoc [("Date", "5/1")])])
      = fieldsDoc [("Page 1 - Name", "Jon"), ("Page 2 - Date", "5/1")] :=
  (c5_pdf_page_concat [fieldsDoc [("Name", "Jon")], fieldsDoc [("Date", "5/1")]]
    (by simp)
    (by
      intro p hp
      simp only [List.mem_cons, List.mem_singleton, List.not_mem_nil, or_false] at hp
      rcases hp with h | h <;> subst h <;>
        exact ⟨_, _, rfl, rfl, by
          intro f hf
          simp at hf
          subst hf
          exact ⟨_, _, rfl, rfl⟩⟩)
    (List.cons_ne_nil _ _)).trans rfl

/-- Counterexample to C5 as stated: a 2-page PDF whose pages both extract
to `\x7b"fields": []\x7d` (reachable, since a 200 response whose JSON
already has an empty `"fields"` list is returned verbatim) does not produce
the empty concatenation but the `"No Data"` placeholder document. -/
theorem c5_counterexample :
    extract_text_from_pdf true
        (.ok [.ok (Json.obj [("fields", Json.arr [])]),
              .ok (Json.obj [("fields", Json.arr [])])])
      = fieldsDoc [("No Data", "No text extracted from PDF")]
    ∧ specPdfConcat 1 [Json.obj [("fields", Json.arr [])],
                       Json.obj [("fields", Json.arr [])]] = []
    ∧ jsonBeq (fieldsDoc [("No Data", "No text extracted from PDF")])
        (Json.obj [("fields", Json.arr [])]) = false :=
  ⟨rfl, rfl, rfl⟩

/-- Every value of the PDF extractor is an object with one `"fields"` list. -/
theorem extractPdfTry_shaped (render : Except PyExn (List (Except PyExn Json)))
    (j : Json) (h : extractPdfTry render = .ok j) :
    ∃ l, j = Json.obj [("fields", Json.arr l)] := by
  unfold extractPdfTry at h
  cases render with
  | error e => exact Except.noConfusion h
  | ok pages =>
      simp only [] at h
      split at h
      · simp only [Except.ok.injEq] at h
        exact ⟨_, h.symm⟩
      · split at h
        · exact Except.noConfusion h
        · simp only [Except.ok.injEq] at h
          exact ⟨_, h.symm⟩

/-- C10: the PDF extractor is total — for every renderer outcome and every
sequence of per-page extraction outcomes it returns a `\x7b"fields": [...]\x7d`
document rather than raising; in particular the missing-credential
`ValueError` raised by the image extractor before any network call is
caught and surfaces as an in-band `PDF Processing Error` field list, and a
PDF upload in that state still answers HTTP success, not a 500. -/
theorem c10_pdf_degrades_missing_credentials (sup : Bool)
    (render : Except PyExn (List (Except PyExn Json)))
    (imgLoad : Except PyExn Unit) (net : Except PyExn HttpResponse)
    (rest : List (Except PyExn Json)) (tid : String) (store : Store) (now : Nat)
    (hfresh : store.records.any (fun r => r.task_id == tid) = false) :
    (∃ l, extract_text_from_pdf sup render = Json.obj [("fields", Json.arr l)])
    ∧ extract_text_from_pdf true
        (.ok (extract_text_from_image none imgLoad net :: rest))
      = fieldsDoc
          [("PDF Processing Error",
            "HUGGINGFACE_API_KEY not found. Please configure your API key in a local .env or environment variable."),
           ("Error Type", "ValueError")]
    ∧ (upload_file "form.pdf" tid
        (.ok (extract_text_from_pdf true
          (.ok (extract_text_from_image none imgLoad net :: rest))))
        store now).2
      = .ok ⟨tid, store.nextId⟩ := by
  refine ⟨?_, rfl, ?_⟩
  · unfold extract_text_from_pdf
    cases sup with
    | false => exact ⟨_, rfl⟩
    | true =>
        simp only [Bool.not_true, Bool.false_eq_true, if_false]
        cases htry : extractPdfTry render with
        | error e => exact ⟨_, rfl⟩
        | ok j => exact extractPdfTry_shaped render j htry
  · unfold upload_file
    rw [if_neg (by decide)]
    simp only []
    rw [if_neg (by decide)]
    unfold insert_record
    rw [hfresh]
    rfl

/-- Witness for C10 with a concrete empty store, a fresh task id and a
rendered single-page PDF whose page extraction hits the missing-credential
error. -/
theorem c10_pdf_degrades_missing_credentials_witness :
    (∃ l, extract_text_from_pdf false (.ok []) = Json.obj [("fields", Json.arr l)])
    ∧ extract_text_from_pdf true
        (.ok [extract_text_from_image none (.ok ()) (.ok ⟨200, "\"x\""⟩)])
      = fieldsDoc
          [("PDF Processing Error",
            "HUGGINGFACE_API_KEY not found. Please configure your API key in a local .env or environment variable."),
           ("Error Type", "ValueError")]
    ∧ (upload_file "form.pdf" "t9"
        (.ok (extract_text_from_pdf true
          (.ok [extract_text_from_image none (.ok ()) (.ok ⟨200, "\"x\""⟩)])))
        ⟨[], 1⟩ 0).2
      = .ok ⟨"t9", 1⟩ :=
  c10_pdf_degrades_missing_credentials false (.ok []) (.ok ()) (.ok ⟨200, "\"x\""⟩)
    [] "t9" ⟨[], 1⟩ 0 rfl

/-- Witness for C2: insert into an empty store and read back both ways. -/
theorem c2_insert_get_roundtrip_witness :
    (∃ r, get_record_by_id ⟨[⟨1, "t1", fieldsDoc [("Name", "Jon")], 5, 5⟩], 2⟩ 1 = some r
        ∧ r.raw_json = fieldsDoc [("Name", "Jon")] ∧ r.task_id = "t1")
    ∧ ∃ r, get_record_by_task_id ⟨[⟨1, "t1", fieldsDoc [("Name", "Jon")], 5, 5⟩], 2⟩ "t1"
          = some r
        ∧ r.raw_json = fieldsDoc [("Name", "Jon")] ∧ r.id = 1 :=
  c2_insert_get_roundtrip ⟨[], 1⟩ "t1" (fieldsDoc [("Name", "Jon")]) 5
    ⟨[⟨1, "t1", fieldsDoc [("Name", "Jon")], 5, 5⟩], 2⟩ 1
    (fun r hr => absurd hr (List.not_mem_nil r))
    rfl

/-- Witness for C3: a duplicate insert into a one-row store fails, and a
subsequent duplicate-insert-then-delete sequence keeps task ids unique. -/
theorem c3_task_id_uniqueness_witness :
    insert_record ⟨[⟨1, "t1", fieldsDoc [], 0, 0⟩], 2⟩ "t1" (fieldsDoc []) 3
      = .error "UNIQUE constraint failed: records.task_id"
    ∧ UniqueTaskIds
        ([StoreOp.insertOp "t1" (fieldsDoc []) 4, StoreOp.deleteOp 1].foldl applyOp
          ⟨[⟨1, "t1", fieldsDoc [], 0, 0⟩], 2⟩) :=
  c3_task_id_uniqueness ⟨[⟨1, "t1", fieldsDoc [], 0, 0⟩], 2⟩ "t1" (fieldsDoc []) 3
    [StoreOp.insertOp "t1" (fieldsDoc []) 4, StoreOp.deleteOp 1]
    rfl (by simp [UniqueTaskIds])
